import Mathlib

/-!
# Verification of the constraint parser/exporter of mit_urdfdom

Shallow embedding of the constraint-element parser and exporter found in the
repository's constraint translation unit (the file defining `parseConstraint`,
`parseLoopConstraint`, `parseCouplingConstraint` and `exportConstraint` in
namespace `urdf`).  XML elements are modelled as a tree of tag / attribute /
children data; the record types mirror the `urdf::Constraint` class hierarchy.

The C++ parsers mutate a record passed by reference and return a `bool`.  The
embedding therefore returns `Bool × record`: the success flag together with the
final state of the record, so that theorems can speak about what a failed parse
leaves behind.

External collaborators that are declared but not defined in the translation
unit (the pose parser `parsePoseInternal` / `exportPose` from pose.hpp, the
scalar parser `strToDouble`, the vector parser `Vector3::init`, the serializer
`urdf_export_helpers::values2str`, and the record-reset methods `clear()` from
urdf_model/constraint.h) are modelled from the spec, as noted on each
definition.
-/

namespace urdf

/-- A decimal scalar: `mantissa / 10 ^ fracDigits`.  Stands in for the C++
`double` values carried by axes, poses and ratios; exact decimals avoid
floating-point rounding while keeping parsing and serialization executable. -/
structure Decimal where
  mantissa : Int
  fracDigits : Nat
deriving DecidableEq, Repr

/-- The 3-vector `urdf::Vector3` (from urdf_model, modelled from the spec:
a 3-component direction vector). -/
structure Vector3 where
  x : Decimal
  y : Decimal
  z : Decimal
deriving DecidableEq, Repr

/-- Modelled from the spec: `Vector3::clear()` resets the vector to the empty
default (all components zero). -/
def Vector3.clearVec : Vector3 :=
  ⟨⟨0, 0⟩, ⟨0, 0⟩, ⟨0, 0⟩⟩

/-- Modelled from the spec: a rigid pose (translation + rotation located by an
`origin` element); pose.hpp is not part of the translation unit.  The rotation
is kept in its rpy wire form. -/
structure Pose where
  position : Vector3
  rotation : Vector3
deriving DecidableEq, Repr

/-- Modelled from the spec: `Pose::clear()` resets the pose to the identity
transform. -/
def Pose.clearPose : Pose :=
  ⟨Vector3.clearVec, Vector3.clearVec⟩

/-- An XML element: tag name, attribute list, child elements.  Models the
tinyxml2 `XMLElement` interface the parser consumes (`Attribute`,
`FirstChildElement`). -/
inductive XMLElement : Type where
  | mk : String → List (String × String) → List XMLElement → XMLElement

/-- The element's tag name. -/
def XMLElement.tag : XMLElement → String
  | .mk t _ _ => t

/-- The element's attribute list. -/
def XMLElement.attrList : XMLElement → List (String × String)
  | .mk _ a _ => a

/-- The element's child elements. -/
def XMLElement.children : XMLElement → List XMLElement
  | .mk _ _ c => c

/-- `e.attr n` models tinyxml2 `e->Attribute(n)`: the value of the first
attribute named `n`, or `none` (NULL) when absent. -/
def XMLElement.attr (e : XMLElement) (n : String) : Option String :=
  (e.attrList.find? (fun p => p.1 = n)).map (fun p => p.2)

/-- `e.firstChildElement t` models tinyxml2 `e->FirstChildElement(t)`: the
first child element with tag `t`, or `none` (NULL) when absent. -/
def XMLElement.firstChildElement (e : XMLElement) (t : String) : Option XMLElement :=
  e.children.find? (fun c => c.tag = t)

/-! ## Scalar and vector string parsing (collaborators)

`strToDouble` and `Vector3::init` are declared in urdf_parser headers, not in
the translation unit under verification.  They are modelled from the spec:
a scalar-string-to-float parser that fails on non-numeric input, and a
vector-from-string parser reading three space-separated floats that fails with
a structured parse error. -/

/-- Numeric value of a list of decimal digit characters. -/
def digitsVal (l : List Char) : Nat :=
  l.foldl (fun a c => a * 10 + (c.toNat - 48)) 0

/-- Modelled from the spec: `strToDouble` — parses an optionally signed decimal
number, failing on any non-numeric input. -/
def strToDouble (s : String) : Option Decimal :=
  let cs := s.toList
  let signAndRest : Bool × List Char :=
    match cs with
    | '-' :: rest => (true, rest)
    | '+' :: rest => (false, rest)
    | _ => (false, cs)
  let neg := signAndRest.1
  let body := signAndRest.2
  let intPart := body.takeWhile Char.isDigit
  let after := body.dropWhile Char.isDigit
  let mk : Nat → Nat → Option Decimal := fun m f =>
    some ⟨if neg then -(m : Int) else (m : Int), f⟩
  match after with
  | [] => if intPart.isEmpty then none else mk (digitsVal intPart) 0
  | '.' :: fracPart =>
    if fracPart.all Char.isDigit ∧ ¬(intPart.isEmpty ∧ fracPart.isEmpty) then
      mk (digitsVal (intPart ++ fracPart)) fracPart.length
    else
      none
  | _ => none

/-- Split a character list on spaces (helper for the vector parser). -/
def splitOnSpace : List Char → List (List Char)
  | [] => [[]]
  | c :: rest =>
    match splitOnSpace rest, c == ' ' with
    | r :: rs, true => [] :: r :: rs
    | r :: rs, false => (c :: r) :: rs
    | [], _ => [[]]

/-- Modelled from the spec: the vector-from-string parser behind
`Vector3::init` — splits on whitespace, expects exactly three components, each
a valid float; fails (throws `ParseError` in the source) otherwise. -/
def parseVec3 (s : String) : Option Vector3 :=
  match (splitOnSpace s.toList).filter (fun p => p ≠ []) with
  | [a, b, c] =>
    match strToDouble (String.mk a), strToDouble (String.mk b), strToDouble (String.mk c) with
    | some xv, some yv, some zv => some ⟨xv, yv, zv⟩
    | _, _, _ => none
  | _ => none

/-! ## Scalar and vector serialization (collaborators)

`urdf_export_helpers::values2str` is modelled from the spec: the vector is
serialized as a whitespace-joined string of its components. -/

/-- Decimal digit characters of a natural number, most significant first. -/
def natDigits (n : Nat) : List Char :=
  (Nat.toDigits 10 n)

/-- Left-pad a digit list with zeros up to length `n`. -/
def padZeros (l : List Char) (n : Nat) : List Char :=
  List.replicate (n - l.length) '0' ++ l

/-- Serialize one decimal scalar: sign, integer digits, and a point followed
by exactly `fracDigits` fraction digits when that count is nonzero. -/
def decimal2str (d : Decimal) : String :=
  let digits := padZeros (natDigits d.mantissa.natAbs) (d.fracDigits + 1)
  let intLen := digits.length - d.fracDigits
  let sign := if d.mantissa < 0 then "-" else ""
  let intPart := String.mk (digits.take intLen)
  let fracPart := String.mk (digits.drop intLen)
  if d.fracDigits = 0 then sign ++ intPart else sign ++ intPart ++ "." ++ fracPart

/-- Modelled from the spec: `values2str` on a `Vector3` — the three components
joined by single spaces. -/
def values2str (v : Vector3) : String :=
  decimal2str v.x ++ " " ++ decimal2str v.y ++ " " ++ decimal2str v.z

/-! ## Pose parsing and export (collaborators from pose.hpp)

Modelled from the spec: the generic pose/transform parser turns an `origin`
element into a rigid transform, distinguishing missing (default) from
malformed (failure); `exportPose` writes the transform back as an `origin`
element. -/

/-- Modelled from the spec: `parsePoseInternal` — absent `xyz`/`rpy`
attributes default to zero, present but malformed attribute content fails. -/
def parsePoseInternal (origin_xml : XMLElement) : Option Pose :=
  let pos : Option Vector3 :=
    match origin_xml.attr "xyz" with
    | none => some Vector3.clearVec
    | some s => parseVec3 s
  let rot : Option Vector3 :=
    match origin_xml.attr "rpy" with
    | none => some Vector3.clearVec
    | some s => parseVec3 s
  match pos, rot with
  | some p, some r => some ⟨p, r⟩
  | _, _ => none

/-- Modelled from the spec: `exportPose` — builds the `origin` element carrying
the pose as `xyz` and `rpy` attributes (appended as a child by the caller). -/
def exportPoseElem (p : Pose) : XMLElement :=
  .mk "origin" [("xyz", values2str p.position), ("rpy", values2str p.rotation)] []

/-! ## The record types (urdf_model/constraint.h, modelled from the spec) -/

/-- The shared constraint header fields (base class `urdf::Constraint`):
name and the two optional endpoint link names.  Unset link names are the empty
string, the value `clear()` leaves. -/
structure Constraint where
  name : String
  predecessor_link_name : String
  successor_link_name : String
deriving DecidableEq, Repr

/-- Modelled from the spec: `Constraint::clear()` — a record is constructed
empty; every hard-failure path must leave the record in a cleared state. -/
def Constraint.clearRec : Constraint :=
  ⟨"", "", ""⟩

/-- The loop-constraint type enum
`LoopConstraint::{PLANAR, REVOLUTE, CONTINUOUS, PRISMATIC, FIXED}`, plus the
cleared/uninitialized value. -/
inductive LoopConstraintType : Type where
  | UNKNOWN
  | PLANAR
  | REVOLUTE
  | CONTINUOUS
  | PRISMATIC
  | FIXED
deriving DecidableEq, Repr

/-- The `urdf::LoopConstraint` record: header plus the two
endpoint-to-constraint transforms, the type enum and the axis. -/
structure LoopConstraint extends Constraint where
  predecessor_to_constraint_origin_transform : Pose
  successor_to_constraint_origin_transform : Pose
  type : LoopConstraintType
  axis : Vector3
deriving DecidableEq, Repr

/-- Modelled from the spec: `LoopConstraint::clear()` — resets every field to
its empty default (identity transforms, no type, zero axis). -/
def LoopConstraint.clearRec : LoopConstraint :=
  { toConstraint := Constraint.clearRec
    predecessor_to_constraint_origin_transform := Pose.clearPose
    successor_to_constraint_origin_transform := Pose.clearPose
    type := LoopConstraintType.UNKNOWN
    axis := Vector3.clearVec }

/-- The `urdf::CouplingConstraint` record: header plus the optional coupling
ratio.  `none` models the field being unset (never assigned by the parse). -/
structure CouplingConstraint extends Constraint where
  ratio : Option Decimal
deriving DecidableEq, Repr

/-- Modelled from the spec: `CouplingConstraint::clear()` — resets every field,
leaving the ratio unset. -/
def CouplingConstraint.clearRec : CouplingConstraint :=
  { toConstraint := Constraint.clearRec, ratio := none }

/-! ## The parsers (embedded from the source translation unit) -/

/-- `parseConstraint` (the header-stage template): requires the `name`
attribute; reads the optional `link` attribute from the optional
`predecessor` and `successor` child elements, leaving the corresponding
field untouched when either is absent. -/
def parseConstraint (c : Constraint) (config : XMLElement) : Bool × Constraint :=
  match config.attr "name" with
  | none => (false, c)
  | some nm =>
    let c1 : Constraint := { c with name := nm }
    let c2 : Constraint :=
      match config.firstChildElement "predecessor" with
      | none => c1
      | some predecessor_xml =>
        match predecessor_xml.attr "link" with
        | none => c1
        | some pname => { c1 with predecessor_link_name := pname }
    let c3 : Constraint :=
      match config.firstChildElement "successor" with
      | none => c2
      | some successor_xml =>
        match successor_xml.attr "link" with
        | none => c2
        | some sname => { c2 with successor_link_name := sname }
    (true, c3)

/-- The origin stage shared by the two endpoints of `parseLoopConstraint`:
no `origin` child means identity transform; a present `origin` child is given
to `parsePoseInternal`, whose failure propagates (`none`). -/
def parseOriginStage (endpoint_xml : XMLElement) : Option Pose :=
  match endpoint_xml.firstChildElement "origin" with
  | none => some Pose.clearPose
  | some origin_xml => parsePoseInternal origin_xml

/-- The `type`-attribute literal table of `parseLoopConstraint`: the
if/else-if chain mapping the five recognized strings to enum values. -/
def loopTypeOfString (s : String) : Option LoopConstraintType :=
  if s = "planar" then some LoopConstraintType.PLANAR
  else if s = "revolute" then some LoopConstraintType.REVOLUTE
  else if s = "continuous" then some LoopConstraintType.CONTINUOUS
  else if s = "prismatic" then some LoopConstraintType.PRISMATIC
  else if s = "fixed" then some LoopConstraintType.FIXED
  else none

/-- `parseLoopConstraint`: clears the record, runs the header stage, requires
both endpoint elements, parses their optional `origin` children, requires and
resolves the `type` attribute, and (for non-FIXED types) handles the optional
`axis` element.  Returns the success flag and the final record state. -/
def parseLoopConstraint (c0 : LoopConstraint) (config : XMLElement) :
    Bool × LoopConstraint :=
  let start : LoopConstraint := LoopConstraint.clearRec
  match parseConstraint start.toConstraint config with
  | (false, hdr) => (false, { start with toConstraint := hdr })
  | (true, hdr) =>
    let c1 : LoopConstraint := { start with toConstraint := hdr }
    match config.firstChildElement "predecessor" with
    | none => (false, c1)
    | some predecessor_xml =>
      match parseOriginStage predecessor_xml with
      | none =>
        (false, { c1 with predecessor_to_constraint_origin_transform := Pose.clearPose })
      | some ppose =>
        let c2 : LoopConstraint :=
          { c1 with predecessor_to_constraint_origin_transform := ppose }
        match config.firstChildElement "successor" with
        | none => (false, c2)
        | some successor_xml =>
          match parseOriginStage successor_xml with
          | none =>
            (false, { c2 with successor_to_constraint_origin_transform := Pose.clearPose })
          | some spose =>
            let c3 : LoopConstraint :=
              { c2 with successor_to_constraint_origin_transform := spose }
            match config.attr "type" with
            | none => (false, c3)
            | some type_str =>
              match loopTypeOfString type_str with
              | none => (false, c3)
              | some ty =>
                let c4 : LoopConstraint := { c3 with type := ty }
                if ty ≠ LoopConstraintType.FIXED then
                  match config.firstChildElement "axis" with
                  | none => (true, { c4 with axis := ⟨⟨1, 0⟩, ⟨0, 0⟩, ⟨0, 0⟩⟩ })
                  | some axis_xml =>
                    match axis_xml.attr "xyz" with
                    | none => (true, c4)
                    | some xyz =>
                      match parseVec3 xyz with
                      | none => (false, { c4 with axis := Vector3.clearVec })
                      | some v => (true, { c4 with axis := v })
                else (true, c4)

/-- `parseCouplingConstraint`: clears the record, runs the header stage, and
handles the optional `ratio` child element — absent is success, present
without a `value` attribute is failure, present with a non-numeric value is
failure, otherwise the ratio is assigned. -/
def parseCouplingConstraint (c0 : CouplingConstraint) (config : XMLElement) :
    Bool × CouplingConstraint :=
  let start : CouplingConstraint := CouplingConstraint.clearRec
  match parseConstraint start.toConstraint config with
  | (false, hdr) => (false, { start with toConstraint := hdr })
  | (true, hdr) =>
    let c1 : CouplingConstraint := { start with toConstraint := hdr }
    match config.firstChildElement "ratio" with
    | none => (true, c1)
    | some ratio_xml =>
      match ratio_xml.attr "value" with
      | none => (false, c1)
      | some rstr =>
        match strToDouble rstr with
        | none => (false, c1)
        | some r => (true, { c1 with ratio := some r })

/-! ## The exporter (embedded from the source translation unit) -/

/-- The inverse of the `type` literal table used by `exportConstraint`
(the else-if chain over the enum; the unmapped value is a hard failure). -/
def loopTypeToString (t : LoopConstraintType) : Option String :=
  match t with
  | LoopConstraintType.REVOLUTE => some "revolute"
  | LoopConstraintType.CONTINUOUS => some "continuous"
  | LoopConstraintType.PRISMATIC => some "prismatic"
  | LoopConstraintType.FIXED => some "fixed"
  | LoopConstraintType.PLANAR => some "planar"
  | LoopConstraintType.UNKNOWN => none

/-- A fully built constraint record: the `class_type` discriminator of the
C++ base class together with the downcast target, as a sum. -/
inductive ConstraintRecord : Type where
  | loop : LoopConstraint → ConstraintRecord
  | coupling : CouplingConstraint → ConstraintRecord

/-- `exportConstraint`: builds the `constraint` element — `name` attribute,
endpoint elements with their `link` attributes, and the class-specific parts
(loop: `type` attribute, per-endpoint `origin` children, `axis` element;
coupling: `ratio` element).  `none` models the hard failure on an unmapped
enum value. -/
def exportConstraint (c : ConstraintRecord) : Option XMLElement :=
  match c with
  | ConstraintRecord.loop lc =>
    match loopTypeToString lc.type with
    | none => none
    | some ts =>
      let predecessor_xml : XMLElement :=
        .mk "predecessor" [("link", lc.predecessor_link_name)]
          [exportPoseElem lc.predecessor_to_constraint_origin_transform]
      let successor_xml : XMLElement :=
        .mk "successor" [("link", lc.successor_link_name)]
          [exportPoseElem lc.successor_to_constraint_origin_transform]
      let axis_xml : XMLElement := .mk "axis" [("xyz", values2str lc.axis)] []
      some (.mk "constraint" [("name", lc.name), ("type", ts)]
        [axis_xml, predecessor_xml, successor_xml])
  | ConstraintRecord.coupling cc =>
    let predecessor_xml : XMLElement :=
      .mk "predecessor" [("link", cc.predecessor_link_name)] []
    let successor_xml : XMLElement :=
      .mk "successor" [("link", cc.successor_link_name)] []
    let ratio_xml : XMLElement :=
      .mk "ratio" [("value", decimal2str (cc.ratio.getD ⟨0, 0⟩))] []
    some (.mk "constraint" [("name", cc.name)]
      [ratio_xml, predecessor_xml, successor_xml])


/-! ## Helper lemmas -/

/-- The header stage succeeds exactly when the `name` attribute is present. -/
theorem parseConstraint_fst (c : Constraint) (e : XMLElement) :
    (parseConstraint c e).1 = (e.attr "name").isSome := by
  unfold parseConstraint
  cases e.attr "name" <;> simp

/-- C10: parsing is insensitive to the record's prior contents: the record is
reset by clear() at the start of each parse call, so both the success flag and
the final record depend only on the XML element. -/
theorem C10_parse_independent_of_initial_state (config : XMLElement)
    (l1 l2 : LoopConstraint) (k1 k2 : CouplingConstraint) :
    parseLoopConstraint l1 config = parseLoopConstraint l2 config ∧
    parseCouplingConstraint k1 config = parseCouplingConstraint k2 config :=
  ⟨rfl, rfl⟩

/-- C4: a missing `name` attribute fails the parse for every constraint class,
and it is the single unconditional hard failure of the header stage: the
header parse succeeds exactly when `name` is present. -/
theorem C4_missing_name_fails_all_classes (c : Constraint) (lc : LoopConstraint)
    (cc : CouplingConstraint) (e : XMLElement) :
    ((parseConstraint c e).1 = true ↔ (e.attr "name").isSome = true) ∧
    (e.attr "name" = none →
      (parseLoopConstraint lc e).1 = false ∧ (parseCouplingConstraint cc e).1 = false) := by
  constructor
  · rw [parseConstraint_fst]
  · intro h
    constructor
    · unfold parseLoopConstraint parseConstraint
      rw [h]
    · unfold parseCouplingConstraint parseConstraint
      rw [h]

/-- C4 witness: a concrete element with no `name` attribute. -/
theorem C4_missing_name_fails_all_classes_witness :
    (XMLElement.mk "constraint" [("type", "revolute")] []).attr "name" = none ∧
    (parseLoopConstraint LoopConstraint.clearRec
        (XMLElement.mk "constraint" [("type", "revolute")] [])).1 = false ∧
    (parseCouplingConstraint CouplingConstraint.clearRec
        (XMLElement.mk "constraint" [("type", "revolute")] [])).1 = false :=
  ⟨by decide,
   (C4_missing_name_fails_all_classes Constraint.clearRec LoopConstraint.clearRec
      CouplingConstraint.clearRec (XMLElement.mk "constraint" [("type", "revolute")] [])).2
      (by decide)⟩

/-- C9: with `name` present, an endpoint child element lacking its `link`
attribute does not fail the header parse, and the corresponding link-name
field is left untouched (unset). -/
theorem C9_missing_link_attr_tolerated (c : Constraint) (e : XMLElement)
    (hn : (e.attr "name").isSome = true) :
    ((∀ p, e.firstChildElement "predecessor" = some p → p.attr "link" = none →
        (parseConstraint c e).1 = true ∧
        (parseConstraint c e).2.predecessor_link_name = c.predecessor_link_name) ∧
     (∀ s, e.firstChildElement "successor" = some s → s.attr "link" = none →
        (parseConstraint c e).1 = true ∧
        (parseConstraint c e).2.successor_link_name = c.successor_link_name)) := by
  obtain ⟨nm, hnm⟩ := Option.isSome_iff_exists.mp hn
  constructor
  · intro p hp hlink
    unfold parseConstraint
    simp only [hnm, hp, hlink]
    refine ⟨by trivial, ?_⟩
    cases e.firstChildElement "successor" with
    | none => rfl
    | some s => cases hsl : s.attr "link" <;> simp only [hsl]
  · intro s hs hlink
    unfold parseConstraint
    simp only [hnm, hs, hlink]
    refine ⟨by trivial, ?_⟩
    cases e.firstChildElement "predecessor" with
    | none => rfl
    | some p => cases hpl : p.attr "link" <;> simp only [hpl]


/-- Concrete endpoint element without a link attribute, for the C9 witness. -/
def c9_pred : XMLElement := .mk "predecessor" [] []

/-- Concrete constraint element for the C9 witness. -/
def c9_elem : XMLElement :=
  .mk "constraint" [("name", "c9")] [c9_pred, .mk "successor" [("link", "s")] []]

/-- C9 witness: the header parse of a named element whose predecessor child
has no link attribute succeeds and leaves the predecessor link name unset. -/
theorem C9_missing_link_attr_tolerated_witness :
    ((c9_elem.attr "name").isSome = true) ∧
    (parseConstraint Constraint.clearRec c9_elem).1 = true ∧
    (parseConstraint Constraint.clearRec c9_elem).2.predecessor_link_name = "" := by
  refine ⟨by decide, ?_⟩
  have h := (C9_missing_link_attr_tolerated Constraint.clearRec c9_elem (by decide)).1
    c9_pred (by rfl) (by rfl)
  exact ⟨h.1, h.2⟩

/-- C2: a loop-constraint parse fails whenever either endpoint child element
is absent, even though the header stage alone tolerates their absence. -/
theorem C2_missing_endpoint_element_fails (c0 : LoopConstraint) (c : Constraint)
    (e : XMLElement)
    (hmiss : e.firstChildElement "predecessor" = none ∨
             e.firstChildElement "successor" = none) :
    (parseLoopConstraint c0 e).1 = false ∧
    ((e.attr "name").isSome = true → (parseConstraint c e).1 = true) := by
  constructor
  · rcases hnm : e.attr "name" with _ | nm
    · unfold parseLoopConstraint parseConstraint
      simp only [hnm]
    · rcases hmiss with hp | hs
      · unfold parseLoopConstraint parseConstraint
        simp only [hnm, hp]
      · unfold parseLoopConstraint parseConstraint
        simp only [hnm, hs]
        cases hpe : e.firstChildElement "predecessor" with
        | none => simp
        | some p =>
          cases hos : parseOriginStage p with
          | none => simp [hos]
          | some pp => simp [hos, hs]
  · intro h
    rw [parseConstraint_fst]
    exact h

/-- C2 witness: a named element with a predecessor but no successor child. -/
theorem C2_missing_endpoint_element_fails_witness :
    ((XMLElement.mk "constraint" [("name", "c2"), ("type", "revolute")]
        [.mk "predecessor" [("link", "p")] []]).firstChildElement "successor" = none) ∧
    (parseLoopConstraint LoopConstraint.clearRec
      (XMLElement.mk "constraint" [("name", "c2"), ("type", "revolute")]
        [.mk "predecessor" [("link", "p")] []])).1 = false ∧
    (parseConstraint Constraint.clearRec
      (XMLElement.mk "constraint" [("name", "c2"), ("type", "revolute")]
        [.mk "predecessor" [("link", "p")] []])).1 = true := by
  refine ⟨by rfl, ?_⟩
  have h := C2_missing_endpoint_element_fails LoopConstraint.clearRec Constraint.clearRec
    (XMLElement.mk "constraint" [("name", "c2"), ("type", "revolute")]
      [.mk "predecessor" [("link", "p")] []]) (Or.inr (by rfl))
  exact ⟨h.1, h.2 (by decide)⟩


/-- C5: the `type` attribute on the constraint element drives the loop parse:
absence fails the parse, an unrecognized literal fails the parse, and a
successful parse always resolved the record's type through the five-literal
table, whose entries are exactly planar/revolute/continuous/prismatic/fixed. -/
theorem C5_type_attribute_resolution (c0 : LoopConstraint) (e : XMLElement) :
    (e.attr "type" = none → (parseLoopConstraint c0 e).1 = false) ∧
    (∀ ts, e.attr "type" = some ts → loopTypeOfString ts = none →
      (parseLoopConstraint c0 e).1 = false) ∧
    (∀ r, parseLoopConstraint c0 e = (true, r) →
      ∃ ts ty, e.attr "type" = some ts ∧ loopTypeOfString ts = some ty ∧
        r.type = ty) ∧
    (loopTypeOfString "planar" = some LoopConstraintType.PLANAR ∧
     loopTypeOfString "revolute" = some LoopConstraintType.REVOLUTE ∧
     loopTypeOfString "continuous" = some LoopConstraintType.CONTINUOUS ∧
     loopTypeOfString "prismatic" = some LoopConstraintType.PRISMATIC ∧
     loopTypeOfString "fixed" = some LoopConstraintType.FIXED) := by
  refine ⟨?_, ?_, ?_, by decide⟩
  · intro h
    unfold parseLoopConstraint
    repeat' split
    all_goals try simp_all
    all_goals (split <;> rfl)
  · intro ts hts hun
    unfold parseLoopConstraint
    repeat' split
    all_goals try simp_all
    all_goals (split <;> rfl)
  · intro r hr
    unfold parseLoopConstraint at hr
    rcases hpc : parseConstraint LoopConstraint.clearRec.toConstraint e with ⟨fl, hdr⟩
    simp only [hpc] at hr
    cases fl
    · exact Bool.noConfusion (congrArg Prod.fst hr)
    · repeat' split at hr
      all_goals injection hr with h1 h2
      all_goals
        first
        | exact Bool.noConfusion h1
        | (subst h2; exact ⟨_, _, by assumption, by assumption, rfl⟩)

/-- A well-formed revolute loop element, used to witness C5. -/
def c5_elem : XMLElement :=
  .mk "constraint" [("name", "c5"), ("type", "revolute")]
    [.mk "predecessor" [("link", "p")] [], .mk "successor" [("link", "s")] []]

/-- The same element with an unrecognized type literal, used to witness C5. -/
def c5_elem_bad : XMLElement :=
  .mk "constraint" [("name", "c5"), ("type", "orbital")]
    [.mk "predecessor" [("link", "p")] [], .mk "successor" [("link", "s")] []]

/-- C5 witness: the unrecognized literal fails on a concrete element, and on a
concrete well-formed element the resolved enum value is REVOLUTE. -/
theorem C5_type_attribute_resolution_witness :
    (c5_elem_bad.attr "type" = some "orbital" ∧ loopTypeOfString "orbital" = none ∧
      (parseLoopConstraint LoopConstraint.clearRec c5_elem_bad).1 = false) ∧
    (parseLoopConstraint LoopConstraint.clearRec c5_elem =
        (true, (parseLoopConstraint LoopConstraint.clearRec c5_elem).2) ∧
      ∃ ts ty, c5_elem.attr "type" = some ts ∧ loopTypeOfString ts = some ty ∧
        (parseLoopConstraint LoopConstraint.clearRec c5_elem).2.type = ty) := by
  constructor
  · exact ⟨by decide, by decide,
      (C5_type_attribute_resolution LoopConstraint.clearRec c5_elem_bad).2.1 "orbital"
        (by decide) (by decide)⟩
  · exact ⟨by decide,
      (C5_type_attribute_resolution LoopConstraint.clearRec c5_elem).2.2.1
        (parseLoopConstraint LoopConstraint.clearRec c5_elem).2 (by decide)⟩


/-- C6: on a loop element whose earlier stages succeed and whose resolved type
is not FIXED — no `axis` child yields success with axis exactly (1.0, 0.0, 0.0);
an `axis` child without `xyz` yields success with the axis left at its prior
(cleared) default; an `axis` child whose `xyz` fails the vector parser clears
the axis and fails the parse. -/
theorem C6_axis_handling_nonfixed (c0 : LoopConstraint) (e p s : XMLElement)
    (ts : String) (ty : LoopConstraintType)
    (hn : (e.attr "name").isSome = true)
    (hp : e.firstChildElement "predecessor" = some p)
    (hpo : (parseOriginStage p).isSome = true)
    (hs : e.firstChildElement "successor" = some s)
    (hso : (parseOriginStage s).isSome = true)
    (ht : e.attr "type" = some ts)
    (hty : loopTypeOfString ts = some ty)
    (hnf : ty ≠ LoopConstraintType.FIXED) :
    (e.firstChildElement "axis" = none →
      (parseLoopConstraint c0 e).1 = true ∧
      (parseLoopConstraint c0 e).2.axis = ⟨⟨1, 0⟩, ⟨0, 0⟩, ⟨0, 0⟩⟩) ∧
    (∀ a, e.firstChildElement "axis" = some a → a.attr "xyz" = none →
      (parseLoopConstraint c0 e).1 = true ∧
      (parseLoopConstraint c0 e).2.axis = Vector3.clearVec) ∧
    (∀ a xyz, e.firstChildElement "axis" = some a → a.attr "xyz" = some xyz →
      parseVec3 xyz = none →
      (parseLoopConstraint c0 e).1 = false ∧
      (parseLoopConstraint c0 e).2.axis = Vector3.clearVec) := by
  obtain ⟨nm, hnm⟩ := Option.isSome_iff_exists.mp hn
  obtain ⟨pp, hpp⟩ := Option.isSome_iff_exists.mp hpo
  obtain ⟨sp, hsp⟩ := Option.isSome_iff_exists.mp hso
  refine ⟨?_, ?_, ?_⟩
  · intro hax
    unfold parseLoopConstraint parseConstraint
    simp only [hnm, hp, hpp, hs, hsp, ht, hty, hax, if_pos hnf]
    exact ⟨by trivial, by trivial⟩
  · intro a hax hxyz
    unfold parseLoopConstraint parseConstraint
    simp only [hnm, hp, hpp, hs, hsp, ht, hty, hax, hxyz, if_pos hnf]
    exact ⟨by trivial, by trivial⟩
  · intro a xyz hax hxyz hbad
    unfold parseLoopConstraint parseConstraint
    simp only [hnm, hp, hpp, hs, hsp, ht, hty, hax, hxyz, hbad, if_pos hnf]
    exact ⟨by trivial, by trivial⟩

/-- A revolute loop element with no axis child, for the C6 witness. -/
def c6_elem : XMLElement :=
  .mk "constraint" [("name", "c6"), ("type", "revolute")]
    [.mk "predecessor" [("link", "p")] [], .mk "successor" [("link", "s")] []]

/-- C6 witness: on the concrete element without an `axis` child the parse
succeeds and the axis is exactly (1.0, 0.0, 0.0). -/
theorem C6_axis_handling_nonfixed_witness :
    ((c6_elem.attr "name").isSome = true ∧
     c6_elem.attr "type" = some "revolute" ∧
     c6_elem.firstChildElement "axis" = none) ∧
    (parseLoopConstraint LoopConstraint.clearRec c6_elem).1 = true ∧
    (parseLoopConstraint LoopConstraint.clearRec c6_elem).2.axis =
      ⟨⟨1, 0⟩, ⟨0, 0⟩, ⟨0, 0⟩⟩ := by
  refine ⟨⟨by decide, by decide, by rfl⟩, ?_⟩
  exact (C6_axis_handling_nonfixed LoopConstraint.clearRec c6_elem
    (.mk "predecessor" [("link", "p")] []) (.mk "successor" [("link", "s")] [])
    "revolute" LoopConstraintType.REVOLUTE (by decide) (by rfl) (by decide)
    (by rfl) (by decide) (by decide) (by decide) (by decide)).1 (by rfl)

/-- C7: on a loop element whose earlier stages succeed and whose `type`
attribute is the literal fixed, the axis stage is skipped altogether: the parse
succeeds whatever `axis` children the element carries (malformed content
included), and the record's axis keeps its cleared value. -/
theorem C7_fixed_skips_axis (c0 : LoopConstraint) (e p s : XMLElement)
    (hn : (e.attr "name").isSome = true)
    (hp : e.firstChildElement "predecessor" = some p)
    (hpo : (parseOriginStage p).isSome = true)
    (hs : e.firstChildElement "successor" = some s)
    (hso : (parseOriginStage s).isSome = true)
    (ht : e.attr "type" = some "fixed") :
    (parseLoopConstraint c0 e).1 = true ∧
    (parseLoopConstraint c0 e).2.axis = Vector3.clearVec := by
  obtain ⟨nm, hnm⟩ := Option.isSome_iff_exists.mp hn
  obtain ⟨pp, hpp⟩ := Option.isSome_iff_exists.mp hpo
  obtain ⟨sp, hsp⟩ := Option.isSome_iff_exists.mp hso
  unfold parseLoopConstraint parseConstraint
  have hty : loopTypeOfString "fixed" = some LoopConstraintType.FIXED := by decide
  simp only [hnm, hp, hpp, hs, hsp, ht, hty]
  exact ⟨by trivial, by trivial⟩

/-- A fixed loop element carrying an axis child with malformed xyz content,
for the C7 witness. -/
def c7_elem : XMLElement :=
  .mk "constraint" [("name", "c7"), ("type", "fixed")]
    [.mk "predecessor" [("link", "p")] [], .mk "successor" [("link", "s")] [],
     .mk "axis" [("xyz", "not a vector")] []]

/-- C7 witness: the concrete fixed element with a malformed axis still parses
successfully. -/
theorem C7_fixed_skips_axis_witness :
    (c7_elem.attr "type" = some "fixed" ∧
     (∃ a, c7_elem.firstChildElement "axis" = some a ∧
        a.attr "xyz" = some "not a vector") ∧
     parseVec3 "not a vector" = none) ∧
    (parseLoopConstraint LoopConstraint.clearRec c7_elem).1 = true ∧
    (parseLoopConstraint LoopConstraint.clearRec c7_elem).2.axis = Vector3.clearVec := by
  refine ⟨⟨by decide, ⟨_, by rfl, by rfl⟩, by decide⟩, ?_⟩
  exact C7_fixed_skips_axis LoopConstraint.clearRec c7_elem
    (.mk "predecessor" [("link", "p")] []) (.mk "successor" [("link", "s")] [])
    (by decide) (by rfl) (by decide) (by rfl) (by decide) (by decide)

/-- C8: the coupling parse — an absent `ratio` child succeeds with the ratio
unset; a `ratio` child without its `value` attribute fails; a `value` attribute
rejected by the scalar parser fails with the ratio still unset. -/
theorem C8_coupling_ratio_handling (c0 : CouplingConstraint) (e : XMLElement) :
    ((e.attr "name").isSome = true → e.firstChildElement "ratio" = none →
      (parseCouplingConstraint c0 e).1 = true ∧
      (parseCouplingConstraint c0 e).2.ratio = none) ∧
    (∀ rx, e.firstChildElement "ratio" = some rx → rx.attr "value" = none →
      (parseCouplingConstraint c0 e).1 = false) ∧
    (∀ rx v, e.firstChildElement "ratio" = some rx → rx.attr "value" = some v →
      strToDouble v = none →
      (parseCouplingConstraint c0 e).1 = false ∧
      (parseCouplingConstraint c0 e).2.ratio = none) := by
  refine ⟨?_, ?_, ?_⟩
  · intro hn hr
    obtain ⟨nm, hnm⟩ := Option.isSome_iff_exists.mp hn
    unfold parseCouplingConstraint parseConstraint
    simp only [hnm, hr]
    exact ⟨by trivial, by trivial⟩
  · intro rx hr hv
    rcases hnm : e.attr "name" with _ | nm
    · unfold parseCouplingConstraint parseConstraint
      simp only [hnm]
    · unfold parseCouplingConstraint parseConstraint
      simp only [hnm, hr, hv]
  · intro rx v hr hv hbad
    rcases hnm : e.attr "name" with _ | nm
    · unfold parseCouplingConstraint parseConstraint
      simp only [hnm]
      exact ⟨by trivial, by trivial⟩
    · unfold parseCouplingConstraint parseConstraint
      simp only [hnm, hr, hv, hbad]
      exact ⟨by trivial, by trivial⟩

/-- A coupling element whose ratio value is not a number, for the C8 witness. -/
def c8_elem : XMLElement :=
  .mk "constraint" [("name", "c8")] [.mk "ratio" [("value", "abc")] []]

/-- C8 witness: on the concrete element with value abc the coupling parse
fails and the ratio stays unset. -/
theorem C8_coupling_ratio_handling_witness :
    (strToDouble "abc" = none) ∧
    (parseCouplingConstraint CouplingConstraint.clearRec c8_elem).1 = false ∧
    (parseCouplingConstraint CouplingConstraint.clearRec c8_elem).2.ratio = none := by
  refine ⟨by decide, ?_⟩
  exact (C8_coupling_ratio_handling CouplingConstraint.clearRec c8_elem).2.2
    (.mk "ratio" [("value", "abc")] []) "abc" (by rfl) (by rfl) (by decide)


/-- The C1 counterexample element: valid origin under the predecessor, then an
unrecognized type literal. -/
def c1_elem : XMLElement :=
  .mk "constraint" [("name", "c1"), ("type", "orbital")]
    [.mk "predecessor" [("link", "p")] [.mk "origin" [("xyz", "1 2 3")] []],
     .mk "successor" [("link", "s")] []]

/-- C1 counterexample: on `c1_elem` the unknown-type failure leaves the
already-parsed predecessor transform in the record — a partially populated
transform survives the failed parse, contradicting the claim. -/
theorem C1_unknown_type_counterexample :
    (parseLoopConstraint LoopConstraint.clearRec c1_elem).1 = false ∧
    (parseLoopConstraint LoopConstraint.clearRec
        c1_elem).2.predecessor_to_constraint_origin_transform ≠ Pose.clearPose := by
  constructor
  · decide
  · decide

/-- C1 amended: an unrecognized `type` literal always fails the loop parse,
and the failing step itself touches no transform: when both endpoint elements
carry no `origin` child, the failed record's transforms are still the
cleared/identity defaults.  (Transforms parsed from `origin` children in the
earlier, successful stages are kept, as the counterexample shows.) -/
theorem C1_unknown_type_fails_with_default_transforms (c0 : LoopConstraint)
    (e p s : XMLElement) (ts : String)
    (hn : (e.attr "name").isSome = true)
    (hp : e.firstChildElement "predecessor" = some p)
    (hporig : p.firstChildElement "origin" = none)
    (hs : e.firstChildElement "successor" = some s)
    (hsorig : s.firstChildElement "origin" = none)
    (ht : e.attr "type" = some ts)
    (hun : loopTypeOfString ts = none) :
    (parseLoopConstraint c0 e).1 = false ∧
    (parseLoopConstraint c0 e).2.predecessor_to_constraint_origin_transform =
      Pose.clearPose ∧
    (parseLoopConstraint c0 e).2.successor_to_constraint_origin_transform =
      Pose.clearPose := by
  obtain ⟨nm, hnm⟩ := Option.isSome_iff_exists.mp hn
  unfold parseLoopConstraint parseConstraint
  simp only [parseOriginStage, hnm, hp, hporig, hs, hsorig, ht, hun]
  exact ⟨by trivial, by trivial, by trivial⟩

/-- C1 witness element: endpoints without origin children, unknown type. -/
def c1_elem_noorigin : XMLElement :=
  .mk "constraint" [("name", "c1"), ("type", "orbital")]
    [.mk "predecessor" [("link", "p")] [], .mk "successor" [("link", "s")] []]

/-- C1 witness: on the concrete element without origin children the
unknown-type failure leaves both transforms at the cleared default. -/
theorem C1_unknown_type_fails_with_default_transforms_witness :
    (loopTypeOfString "orbital" = none) ∧
    (parseLoopConstraint LoopConstraint.clearRec c1_elem_noorigin).1 = false ∧
    (parseLoopConstraint LoopConstraint.clearRec
        c1_elem_noorigin).2.predecessor_to_constraint_origin_transform =
      Pose.clearPose ∧
    (parseLoopConstraint LoopConstraint.clearRec
        c1_elem_noorigin).2.successor_to_constraint_origin_transform =
      Pose.clearPose := by
  refine ⟨by decide, ?_⟩
  exact C1_unknown_type_fails_with_default_transforms LoopConstraint.clearRec
    c1_elem_noorigin (.mk "predecessor" [("link", "p")] [])
    (.mk "successor" [("link", "s")] []) "orbital"
    (by decide) (by rfl) (by rfl) (by rfl) (by rfl) (by decide) (by decide)

/-- The C3 counterexample record: a fully valid FIXED loop constraint whose
axis is not the cleared default. -/
def c3_rec : LoopConstraint :=
  { toConstraint := ⟨"c3", "p", "s"⟩
    predecessor_to_constraint_origin_transform := Pose.clearPose
    successor_to_constraint_origin_transform := Pose.clearPose
    type := LoopConstraintType.FIXED
    axis := ⟨⟨1, 0⟩, ⟨0, 0⟩, ⟨0, 0⟩⟩ }

/-- The element `exportConstraint` produces for the C3 counterexample record. -/
def c3_exported : XMLElement :=
  (exportConstraint (ConstraintRecord.loop c3_rec)).getD (.mk "" [] [])

/-- C3 counterexample: exporting the FIXED record `c3_rec` and re-parsing
succeeds but does not restore the record: the axis comes back cleared instead
of equal to the original, so the round-trip claim fails on FIXED records. -/
theorem C3_roundtrip_counterexample :
    exportConstraint (ConstraintRecord.loop c3_rec) = some c3_exported ∧
    (parseLoopConstraint LoopConstraint.clearRec c3_exported).1 = true ∧
    (parseLoopConstraint LoopConstraint.clearRec c3_exported).2.axis ≠ c3_rec.axis ∧
    (parseLoopConstraint LoopConstraint.clearRec c3_exported).2 ≠ c3_rec := by
  refine ⟨rfl, ?_, ?_, ?_⟩
  · decide
  · decide
  · decide

/-- C3 amended: for every loop record whose type is mapped by the exporter
(not UNKNOWN) and whose numeric payload survives its own serialization
(the pose and vector collaborators round-trip on the record's values, spec
§6/§8), export followed by re-parse succeeds and restores name, both endpoint
link names, type and both transforms; the axis is restored exactly when the
type is not FIXED, and comes back cleared when it is. -/
theorem C3_roundtrip_amended (lc c0 : LoopConstraint)
    (hty : lc.type ≠ LoopConstraintType.UNKNOWN)
    (hp : parsePoseInternal (exportPoseElem lc.predecessor_to_constraint_origin_transform) =
      some lc.predecessor_to_constraint_origin_transform)
    (hs : parsePoseInternal (exportPoseElem lc.successor_to_constraint_origin_transform) =
      some lc.successor_to_constraint_origin_transform)
    (ha : parseVec3 (values2str lc.axis) = some lc.axis) :
    (exportConstraint (ConstraintRecord.loop lc)).map (parseLoopConstraint c0) =
      some (true, if lc.type = LoopConstraintType.FIXED
                  then { lc with axis := Vector3.clearVec } else lc) := by
  obtain ⟨⟨n, pl, sl⟩, pt, st, ty, ax⟩ := lc
  simp only [exportPoseElem] at hp hs
  cases ty
  case UNKNOWN => exact absurd rfl hty
  all_goals
    simp only [exportConstraint, loopTypeToString, Option.map,
      parseLoopConstraint, parseConstraint, parseOriginStage,
      XMLElement.attr, XMLElement.attrList, XMLElement.firstChildElement,
      XMLElement.children, XMLElement.tag, List.find?, exportPoseElem,
      loopTypeOfString, hp, hs, ha]
    simp [hp, hs, ha]
    try rfl

/-- A concrete fully valid revolute record for the C3 witness. -/
def c3_wit_rec : LoopConstraint :=
  { toConstraint := ⟨"c3w", "linkP", "linkS"⟩
    predecessor_to_constraint_origin_transform :=
      ⟨⟨⟨1, 0⟩, ⟨2, 0⟩, ⟨3, 0⟩⟩, ⟨⟨0, 0⟩, ⟨0, 0⟩, ⟨0, 0⟩⟩⟩
    successor_to_constraint_origin_transform :=
      ⟨⟨⟨-15, 1⟩, ⟨5, 2⟩, ⟨0, 0⟩⟩, ⟨⟨1, 1⟩, ⟨0, 0⟩, ⟨0, 0⟩⟩⟩
    type := LoopConstraintType.REVOLUTE
    axis := ⟨⟨1, 0⟩, ⟨0, 0⟩, ⟨0, 0⟩⟩ }

/-- C3 witness: the concrete revolute record round-trips exactly through
export and re-parse. -/
theorem C3_roundtrip_amended_witness :
    (c3_wit_rec.type ≠ LoopConstraintType.UNKNOWN ∧
     parsePoseInternal (exportPoseElem
         c3_wit_rec.predecessor_to_constraint_origin_transform) =
       some c3_wit_rec.predecessor_to_constraint_origin_transform ∧
     parsePoseInternal (exportPoseElem
         c3_wit_rec.successor_to_constraint_origin_transform) =
       some c3_wit_rec.successor_to_constraint_origin_transform ∧
     parseVec3 (values2str c3_wit_rec.axis) = some c3_wit_rec.axis) ∧
    (exportConstraint (ConstraintRecord.loop c3_wit_rec)).map
        (parseLoopConstraint LoopConstraint.clearRec) =
      some (true, if c3_wit_rec.type = LoopConstraintType.FIXED
                  then { c3_wit_rec with axis := Vector3.clearVec } else c3_wit_rec) := by
  refine ⟨⟨by decide, by decide, by decide, by decide⟩, ?_⟩
  exact C3_roundtrip_amended c3_wit_rec LoopConstraint.clearRec
    (by decide) (by decide) (by decide) (by decide)

end urdf
